import Mathlib

/-!
Shallow embedding of the copcPotree conversion scripts:
`convert_copc_to_potree.py`, `convert_las_to_tiled_copc.py`,
`convert_all_copc_to_potree.py` and `convert_to_potree.py`.

External tools (PDAL, PotreeConverter) are modelled as oracles: each
spawned process's success is a Boolean parameter of the embedding, and
a successful process is assumed to create its designated output file.
The filesystem is modelled as a Boolean existence predicate on path
strings; process spawns, directory creation, file creation and file
deletion are recorded as events, in program order.
-/

/-- Filesystem model: existence predicate on path strings. -/
abbrev FSState := String → Bool

/-- Mark a path as existing. -/
def fsAdd (fs : FSState) (p : String) : FSState :=
  fun q => if q = p then true else fs q

/-- Mark a path as removed. -/
def fsDel (fs : FSState) (p : String) : FSState :=
  fun q => if q = p then false else fs q

/-- Observable side effects of the scripts. -/
inductive Event where
  | spawn : String → Event
  | mkdir : String → Event
  | create : String → Event
  | unlink : String → Event
deriving DecidableEq, Repr

/-- A parameter value of a PDAL pipeline stage: the Python dict literals
hold either strings or numbers. -/
inductive PValue where
  | s : String → PValue
  | n : ℚ → PValue
deriving DecidableEq, Repr

/-- One pipeline stage: an ordered list of named fields, as written in the
Python dict literals (the stage type is the field named "type"). -/
structure Stage where
  fields : List (String × PValue)
deriving DecidableEq, Repr

/-- A PDAL pipeline descriptor: the ordered stages under the single
top-level key "pipeline". -/
structure Pipeline where
  stages : List Stage
deriving DecidableEq, Repr

/-- JSON values, the target of serialization (`json.dumps` / `json.load`
preserve exactly this structure for the documents the scripts build). -/
inductive JVal where
  | str : String → JVal
  | num : ℚ → JVal
  | bool : Bool → JVal
  | null : JVal
  | arr : List JVal → JVal
  | obj : List (String × JVal) → JVal

/-- Serialize one stage-parameter value. -/
def encodePValue : PValue → JVal
  | PValue.s v => JVal.str v
  | PValue.n v => JVal.num v

/-- Deserialize one stage-parameter value. -/
def decodePValue : JVal → Option PValue
  | JVal.str v => some (PValue.s v)
  | JVal.num v => some (PValue.n v)
  | _ => none

/-- Serialize the ordered field list of a stage. -/
def encodeFields (l : List (String × PValue)) : List (String × JVal) :=
  l.map (fun kv => (kv.1, encodePValue kv.2))

/-- Deserialize the ordered field list of a stage. -/
def decodeFields : List (String × JVal) → Option (List (String × PValue))
  | [] => some []
  | (k, v) :: rest =>
    match decodePValue v, decodeFields rest with
    | some pv, some prest => some ((k, pv) :: prest)
    | _, _ => none

/-- Serialize one stage. -/
def encodeStage (st : Stage) : JVal := JVal.obj (encodeFields st.fields)

/-- Deserialize one stage. -/
def decodeStage : JVal → Option Stage
  | JVal.obj l => (decodeFields l).map Stage.mk
  | _ => none

/-- Serialize the ordered stage list. -/
def encodeStages (l : List Stage) : List JVal := l.map encodeStage

/-- Deserialize the ordered stage list. -/
def decodeStages : List JVal → Option (List Stage)
  | [] => some []
  | j :: rest =>
    match decodeStage j, decodeStages rest with
    | some st, some sts => some (st :: sts)
    | _, _ => none

/-- Serialize a pipeline descriptor to JSON. -/
def encodePipeline (p : Pipeline) : JVal :=
  JVal.obj [("pipeline", JVal.arr (encodeStages p.stages))]

/-- Deserialize a pipeline descriptor from JSON. -/
def decodePipeline : JVal → Option Pipeline
  | JVal.obj [(k, JVal.arr l)] =>
    if k = "pipeline" then (decodeStages l).map Pipeline.mk else none
  | _ => none

theorem decodePValue_encodePValue (v : PValue) :
    decodePValue (encodePValue v) = some v := by
  cases v <;> rfl

theorem decodeFields_encodeFields (l : List (String × PValue)) :
    decodeFields (encodeFields l) = some l := by
  induction l with
  | nil => rfl
  | cons kv rest ih =>
    simp [encodeFields, decodeFields, decodePValue_encodePValue kv.2] at *
    simp [ih]

theorem decodeStage_encodeStage (st : Stage) :
    decodeStage (encodeStage st) = some st := by
  simp [encodeStage, decodeStage, decodeFields_encodeFields]

theorem decodeStages_encodeStages (l : List Stage) :
    decodeStages (encodeStages l) = some l := by
  induction l with
  | nil => rfl
  | cons st rest ih =>
    simp [encodeStages, decodeStages, decodeStage_encodeStage st] at *
    simp [ih]

theorem decodePipeline_encodePipeline (p : Pipeline) :
    decodePipeline (encodePipeline p) = some p := by
  simp [encodePipeline, decodePipeline, decodeStages_encodeStages]

namespace ConvertCopcToPotree

/-- The PDAL pipeline literal of `reproject_copc_to_las`
(src/convert_copc_to_potree.py lines 34-58): reader, reprojection
filter, high-precision LAS writer.  The scale/offset values are string
literals there. -/
def reprojectPipeline (input_copc output_las : String) : Pipeline :=
  ⟨[⟨[("type", PValue.s "readers.copc"),
      ("filename", PValue.s input_copc)]⟩,
    ⟨[("type", PValue.s "filters.reprojection"),
      ("in_srs", PValue.s "EPSG:3857"),
      ("out_srs", PValue.s "EPSG:4326")]⟩,
    ⟨[("type", PValue.s "writers.las"),
      ("filename", PValue.s output_las),
      ("scale_x", PValue.s "0.0000001"),
      ("scale_y", PValue.s "0.0000001"),
      ("scale_z", PValue.s "0.001"),
      ("offset_x", PValue.s "auto"),
      ("offset_y", PValue.s "auto"),
      ("offset_z", PValue.s "auto"),
      ("a_srs", PValue.s "EPSG:4326")]⟩]⟩

/-- Embeds `reproject_copc_to_las` (src/convert_copc_to_potree.py lines
23-82): write the pipeline to a fresh temporary file, run `pdal pipeline`
on it, and in a `finally` block unlink the temporary file; returns True
on process success and False on `CalledProcessError`.  `pdalOk` is the
external process outcome; on success the external tool creates
`output_las`.  Returns (success flag, final filesystem, events). -/
def reproject_copc_to_las (input_copc output_las pipeline_file : String)
    (pdalOk : Bool) (fs : FSState) : Bool × FSState × List Event :=
  let _ := reprojectPipeline input_copc output_las
  let fs1 := fsAdd fs pipeline_file
  let fs2 := if pdalOk then fsAdd fs1 output_las else fs1
  (pdalOk, fsDel fs2 pipeline_file,
   [Event.create pipeline_file, Event.spawn "pdal pipeline",
    Event.unlink pipeline_file])

/-- Embeds `convert_las_to_potree` (src/convert_copc_to_potree.py lines
84-128): spawn PotreeConverter on the LAS file; returns True on success
and False on `CalledProcessError` or `FileNotFoundError`. -/
def convert_las_to_potree (input_las output_dir : String)
    (potreeOk : Bool) (fs : FSState) : Bool × FSState × List Event :=
  let _ := input_las
  let _ := output_dir
  (potreeOk, fs, [Event.spawn "PotreeConverter"])

/-- The Potree metadata document as read back by
`verify_potree_metadata`: the `points` value (any JSON value; a missing
`points` key yields the numeric default 0 through `get` at line 149) and
the bounding-box min/max lists (a missing `boundingBox`, `min` or `max`
key yields `[]` through the dict `get` defaults at lines 143-145).  The
bound-list entries are modelled as numbers, as in metadata the external
tool emits; the `version` value (line 148) is formatted with a plain
replacement field, which raises for no JSON value, so it is not
modelled. -/
structure Metadata where
  points : JVal
  bbox_min : List ℚ
  bbox_max : List ℚ

/-- Whether Python's thousands-separator format spec — the `:,` applied
to the points value at line 149 — accepts the value without raising: it
does for JSON numbers and booleans (bool is an int subclass), and raises
ValueError or TypeError for strings, null, arrays and objects. -/
def pointsFormatOk : JVal → Bool
  | JVal.num _ => true
  | JVal.bool _ => true
  | _ => false

/-- Embeds `verify_potree_metadata` (src/convert_copc_to_potree.py lines
130-172): `none` input models a missing metadata.json.  Returns
`some false` when the file is absent (before anything is formatted);
for a present document the summary print at line 149 formats the points
value with the `:,` spec before the length guard at line 152, so a
non-numeric points value raises — modelled as result `none`; otherwise
returns `some false` when either bound list has fewer than three entries
or a bound fails its sanity range, and `some true` otherwise. -/
def verify_potree_metadata (metadata : Option Metadata) : Option Bool :=
  match metadata with
  | none => some false
  | some m =>
    if pointsFormatOk m.points = false then none
    else
      let min_coords := m.bbox_min
      let max_coords := m.bbox_max
      if 3 ≤ min_coords.length ∧ 3 ≤ max_coords.length then
        if 180 < |min_coords.getD 0 0| ∨ 180 < |max_coords.getD 0 0| then
          some false
        else if 90 < |min_coords.getD 1 0| ∨ 90 < |max_coords.getD 1 0| then
          some false
        else if 100 < max_coords.getD 2 0 then some false
        else some true
      else some false

/-- Embeds `main` (src/convert_copc_to_potree.py lines 174-214), for a
well-formed argument vector: validate that the input exists (exit 1
before anything else otherwise), create the output directory and a
fresh temporary LAS path, reproject (exit 1 on failure), convert to
Potree (exit 1 on failure), verify the metadata ignoring its Boolean
result — though an exception raised inside verification propagates
uncaught, so the interpreter exits 1 — and in a `finally` block (run on
every exit) unlink the temporary LAS file.  `metadata` is the document
verification reads back.  Returns (exit code, events, final
filesystem). -/
def copc_main (input_copc output_potree_dir temp_las pipeline_file : String)
    (pdalOk potreeOk : Bool) (metadata : Option Metadata) (fs : FSState) :
    Nat × List Event × FSState :=
  if fs input_copc = false then (1, [], fs)
  else
    let ev0 := [Event.mkdir output_potree_dir, Event.create temp_las]
    let fs0 := fsAdd fs temp_las
    let r1 := reproject_copc_to_las input_copc temp_las pipeline_file pdalOk fs0
    if r1.1 = false then (1, ev0 ++ r1.2.2, fsDel r1.2.1 temp_las)
    else
      let r2 := convert_las_to_potree temp_las output_potree_dir potreeOk r1.2.1
      if r2.1 = false then (1, ev0 ++ r1.2.2 ++ r2.2.2, fsDel r2.2.1 temp_las)
      else
        match verify_potree_metadata metadata with
        | none => (1, ev0 ++ r1.2.2 ++ r2.2.2, fsDel r2.2.1 temp_las)
        | some _ => (0, ev0 ++ r1.2.2 ++ r2.2.2, fsDel r2.2.1 temp_las)

end ConvertCopcToPotree

namespace ConvertLasToTiledCopc

/-- One latitude tile record, as in the `tiles` list literal
(src/convert_las_to_tiled_copc.py lines 27-32). -/
structure Tile where
  name : String
  lat_min : ℚ
  lat_max : ℚ
deriving DecidableEq, Repr

/-- The four fixed latitude tiles (src/convert_las_to_tiled_copc.py
lines 27-32). -/
def tiles : List Tile :=
  [⟨"south", -90, -30⟩,
   ⟨"south_mid", -30, 0⟩,
   ⟨"north_mid", 0, 30⟩,
   ⟨"north", 30, 90⟩]

/-- Output COPC path for one tile (lines 45-46):
`output_dir / (base_name + "_tile_" + name + ".copc.laz")`. -/
def tileOutputPath (output_dir base_name : String) (t : Tile) : String :=
  output_dir ++ "/" ++ base_name ++ "_tile_" ++ t.name ++ ".copc.laz"

/-- The PDAL pipeline literal built per tile (lines 54-81): LAS reader,
latitude range filter, statistics filter, COPC writer.  The scale
values are numeric literals there. -/
def tilePipeline (las_path copc_path : String) (t : Tile) : Pipeline :=
  ⟨[⟨[("type", PValue.s "readers.las"),
      ("filename", PValue.s las_path)]⟩,
    ⟨[("type", PValue.s "filters.range"),
      ("limits", PValue.s ("Y[" ++ toString t.lat_min ++ ":" ++
                           toString t.lat_max ++ "]"))]⟩,
    ⟨[("type", PValue.s "filters.stats"),
      ("dimensions", PValue.s "X,Y,Z,Intensity")]⟩,
    ⟨[("type", PValue.s "writers.copc"),
      ("filename", PValue.s copc_path),
      ("forward", PValue.s "all"),
      ("a_srs", PValue.s "EPSG:4326"),
      ("scale_x", PValue.n 0.0001),
      ("scale_y", PValue.n 0.0001),
      ("scale_z", PValue.n 0.001),
      ("offset_x", PValue.s "auto"),
      ("offset_y", PValue.s "auto"),
      ("offset_z", PValue.s "auto")]⟩]⟩

/-- Modelled from the spec: which latitudes belong to band `i`.  The
filtering itself happens inside the external PDAL range filter, which
the spec treats as opaque; the spec's data model ("four fixed bands:
[-90,-30), [-30,0), [0,30), [30,90]") gives each band
inclusive-exclusive bounds, with the final band also closed at its
upper bound. -/
def inBand (i : Nat) (lat : ℚ) : Bool :=
  match tiles.get? i with
  | none => false
  | some t =>
    if i = tiles.length - 1 then decide (t.lat_min ≤ lat ∧ lat ≤ t.lat_max)
    else decide (t.lat_min ≤ lat ∧ lat < t.lat_max)

/-- Embeds the per-tile loop of `split_las_to_tiles`
(src/convert_las_to_tiled_copc.py lines 44-103): for each of the four
tiles, build the pipeline, spawn `pdal pipeline --stdin`, and on
`CalledProcessError` (or any other exception, e.g. a failed stat) print
the error and `continue` with the next tile.  No existence check is
made on `las_path` before spawning.  `outcome i` is the i-th spawned
process's success.  Returns ((successes, failures), events, final
filesystem). -/
def split_las_to_tiles (las_path output_dir base_name : String)
    (outcome : Nat → Bool) (fs : FSState) :
    (Nat × Nat) × List Event × FSState :=
  let step := fun (acc : (Nat × Nat) × List Event × FSState) (it : Nat × Tile) =>
    let copc := tileOutputPath output_dir base_name it.2
    let _ := tilePipeline las_path copc it.2
    let ok := outcome it.1
    (((if ok then acc.1.1 + 1 else acc.1.1),
      (if ok then acc.1.2 else acc.1.2 + 1)),
     acc.2.1 ++ [Event.spawn ("pdal pipeline --stdin " ++ copc)],
     if ok then fsAdd acc.2.2 copc else acc.2.2)
  tiles.enum.foldl step ((0, 0), ([Event.mkdir output_dir], fs))

end ConvertLasToTiledCopc

/-- Models Python's `str.lower()` (for the ASCII responses the prompt
compares against): lowercase every character. -/
def strLower (s : String) : String := ⟨s.data.map Char.toLower⟩

namespace ConvertAllCopcToPotree

/-- Embeds `convert_single_file` (src/convert_all_copc_to_potree.py
lines 20-48): spawn `python3 convert_copc_to_potree.py` on one file;
`ok` is the subprocess outcome.  Returns ((name, success), events). -/
def convert_single_file (copc_file : String) (ok : Bool) :
    (String × Bool) × List Event :=
  ((copc_file, ok), [Event.spawn ("python3 convert_copc_to_potree.py " ++ copc_file)])

/-- Embeds `main` (src/convert_all_copc_to_potree.py lines 50-124), for
a well-formed argument vector: exit 1 if the input directory does not
exist; exit 1 if the glob finds no `.copc.laz` files; create the output
directory; prompt — any response whose lowercasing is not "y" aborts
with exit 0; otherwise process every discovered file sequentially,
collecting per-file results.  `copc_files` is the glob result and
`outcome i` the i-th conversion subprocess's success.  Returns
(exit code, events, per-file results). -/
def batch_main (copc_dir : String) (copc_files : List String)
    (response : String) (output_base_dir : String)
    (outcome : Nat → Bool) (fs : FSState) :
    Nat × List Event × List (String × Bool) :=
  if fs copc_dir = false then (1, [], [])
  else if copc_files.isEmpty then (1, [], [])
  else
    let ev0 := [Event.mkdir output_base_dir]
    if strLower response ≠ "y" then (0, ev0, [])
    else
      let step := fun (acc : List Event × List (String × Bool)) (it : Nat × String) =>
        let r := convert_single_file it.2 (outcome it.1)
        (acc.1 ++ r.2, acc.2 ++ [r.1])
      let r := copc_files.enum.foldl step (ev0, [])
      (0, r.1, r.2)

end ConvertAllCopcToPotree

namespace ConvertToPotree

/-- The fixed list of common install locations checked by
`check_potree_converter` (src/convert_to_potree.py lines 43-48). -/
def common_paths (home : String) : List String :=
  ["/usr/local/bin/PotreeConverter",
   "/usr/bin/PotreeConverter",
   home ++ "/PotreeConverter/build/PotreeConverter",
   home ++ "/bin/PotreeConverter"]

/-- Embeds `check_potree_converter` (src/convert_to_potree.py lines
19-54): if an explicit path is given, return it when it exists and
`none` otherwise (without consulting the other strategies); else return
the search-path lookup result (`shutil.which`, modelled by
`whichResult`) when there is one; else the first existing entry of the
common install locations; else `none`. -/
def check_potree_converter (potree_path : Option String)
    (whichResult : Option String) (home : String) (fs : FSState) :
    Option String :=
  match potree_path with
  | some p => if fs p then some p else none
  | none =>
    match whichResult with
    | some w => some w
    | none => (common_paths home).find? fs

/-- The PDAL pipeline literal of `convert_las_to_copc`
(src/convert_to_potree.py lines 91-114): LAS reader, statistics filter,
COPC writer with numeric scale literals. -/
def copcPipeline (las_path copc_path : String) : Pipeline :=
  ⟨[⟨[("type", PValue.s "readers.las"),
      ("filename", PValue.s las_path)]⟩,
    ⟨[("type", PValue.s "filters.stats"),
      ("dimensions", PValue.s "X,Y,Z,Intensity")]⟩,
    ⟨[("type", PValue.s "writers.copc"),
      ("filename", PValue.s copc_path),
      ("forward", PValue.s "all"),
      ("a_srs", PValue.s "EPSG:4326"),
      ("scale_x", PValue.n 0.0001),
      ("scale_y", PValue.n 0.0001),
      ("scale_z", PValue.n 0.001),
      ("offset_x", PValue.s "auto"),
      ("offset_y", PValue.s "auto"),
      ("offset_z", PValue.s "auto")]⟩]⟩

/-- Outcome of `convert_hdf_to_potree`: the tool-not-found RuntimeError,
a propagated exception from conversion step 1, 2 or 3, or success with
the Potree output directory. -/
inductive HdfOutcome where
  | toolNotFound : HdfOutcome
  | stepFailed : Nat → HdfOutcome
  | ok : String → HdfOutcome
deriving DecidableEq, Repr

/-- Embeds `convert_hdf_to_potree` (src/convert_to_potree.py lines
179-258): resolve PotreeConverter (raise tool-not-found if unresolved);
run HDF→LAS, LAS→COPC, COPC→Potree in order, each exception
propagating immediately; only after all three succeed, and only when
`keep_intermediate` is unset, unlink the intermediate LAS and COPC
files.  `lasOk`, `copcOk`, `potreeOk` are the three steps' outcomes;
a successful step creates its output file.  Returns (outcome, final
filesystem). -/
def convert_hdf_to_potree (hdf_stem output_dir : String)
    (potree_converter_path whichResult : Option String) (home : String)
    (keep_intermediate : Bool) (lasOk copcOk potreeOk : Bool)
    (fs : FSState) : HdfOutcome × FSState :=
  match check_potree_converter potree_converter_path whichResult home fs with
  | none => (HdfOutcome.toolNotFound, fs)
  | some _ =>
    let las_path := output_dir ++ "/" ++ hdf_stem ++ ".las"
    let copc_path := output_dir ++ "/" ++ hdf_stem ++ ".copc.laz"
    let potree_output := output_dir ++ "/" ++ hdf_stem
    let _ := copcPipeline las_path copc_path
    if lasOk = false then (HdfOutcome.stepFailed 1, fs)
    else
      let fs1 := fsAdd fs las_path
      if copcOk = false then (HdfOutcome.stepFailed 2, fs1)
      else
        let fs2 := fsAdd fs1 copc_path
        if potreeOk = false then (HdfOutcome.stepFailed 3, fs2)
        else
          let fs3 :=
            if keep_intermediate then fs2
            else fsDel (fsDel fs2 las_path) copc_path
          (HdfOutcome.ok potree_output, fs3)

end ConvertToPotree

open ConvertCopcToPotree ConvertLasToTiledCopc ConvertAllCopcToPotree ConvertToPotree

theorem verify_triple_iff (pts a b c d e f : ℚ) :
    verify_potree_metadata (some ⟨JVal.num pts, [a, b, c], [d, e, f]⟩) =
        some true ↔
      ((-180 ≤ a ∧ a ≤ 180) ∧ (-180 ≤ d ∧ d ≤ 180) ∧ (-90 ≤ b ∧ b ≤ 90) ∧
       (-90 ≤ e ∧ e ≤ 90) ∧ f ≤ 100) := by
  simp only [verify_potree_metadata, pointsFormatOk, List.length_cons,
    List.length_nil, List.getD_cons_zero, List.getD_cons_succ]
  rw [if_neg (by simp)]
  rw [if_pos (by omega)]
  split_ifs with h1 h2 h3
  · simp only [Option.some.injEq, Bool.false_eq_true, false_iff]
    rintro ⟨⟨ha1, ha2⟩, ⟨hd1, hd2⟩, -, -, -⟩
    rcases h1 with h | h
    · have := abs_le.mpr ⟨ha1, ha2⟩; linarith
    · have := abs_le.mpr ⟨hd1, hd2⟩; linarith
  · simp only [Option.some.injEq, Bool.false_eq_true, false_iff]
    rintro ⟨-, -, ⟨hb1, hb2⟩, ⟨he1, he2⟩, -⟩
    rcases h2 with h | h
    · have := abs_le.mpr ⟨hb1, hb2⟩; linarith
    · have := abs_le.mpr ⟨he1, he2⟩; linarith
  · simp only [Option.some.injEq, Bool.false_eq_true, false_iff]
    rintro ⟨-, -, -, -, hf⟩
    linarith
  · simp only [Option.some.injEq, true_iff]
    push_neg at h1 h2 h3
    have ha := abs_le.mp h1.1
    have hd := abs_le.mp h1.2
    have hb := abs_le.mp h2.1
    have he := abs_le.mp h2.2
    exact ⟨ha, hd, hb, he, h3⟩

/-- C2: for documents whose bound lists are numeric triples (as the
external tool emits), metadata verification succeeds exactly when both
longitude bounds lie within [-180, 180], both latitude bounds lie within
[-90, 90], and the maximum altitude is at most 100; longitude 200 yields
a failure result without raising, longitudes 45.0 and -10.0 (with
in-range latitudes and altitudes) yield success; and `main` still exits
0 and reports overall success whatever Boolean result verification
produces. -/
theorem C2_metadata_verification :
    (∀ pts a b c d e f : ℚ,
      verify_potree_metadata (some ⟨JVal.num pts, [a, b, c], [d, e, f]⟩) =
          some true ↔
        ((-180 ≤ a ∧ a ≤ 180) ∧ (-180 ≤ d ∧ d ≤ 180) ∧ (-90 ≤ b ∧ b ≤ 90) ∧
         (-90 ≤ e ∧ e ≤ 90) ∧ f ≤ 100)) ∧
    verify_potree_metadata (some ⟨JVal.num 0, [200, 0, 0], [-10, 0, 0]⟩) =
      some false ∧
    verify_potree_metadata (some ⟨JVal.num 0, [45, 10, 5], [-10, 20, 50]⟩) =
      some true ∧
    (∀ input_copc output_dir temp_las pipeline_file md fs b,
      fs input_copc = true → verify_potree_metadata md = some b →
      (copc_main input_copc output_dir temp_las pipeline_file true true md fs).1 = 0) := by
  refine ⟨verify_triple_iff, by decide, by decide, ?_⟩
  intro input_copc output_dir temp_las pipeline_file md fs b h hv
  simp [copc_main, reproject_copc_to_las, convert_las_to_potree, h, hv]

/-- Witness for C2 at concrete inputs. -/
theorem C2_witness :
    verify_potree_metadata (some ⟨JVal.num 0, [45, 0, 0], [-10, 0, 0]⟩) =
      some true ∧
    (copc_main "in.copc.laz" "out" "tmp.las" "pf.json" true true none
        (fun _ => true)).1 = 0 :=
  ⟨(C2_metadata_verification.1 0 45 0 0 (-10) 0 0).mpr (by norm_num),
   C2_metadata_verification.2.2.2 "in.copc.laz" "out" "tmp.las" "pf.json" none
     (fun _ => true) false rfl rfl⟩

/-- C8: serializing any pipeline descriptor built by the converters to JSON
and deserializing it reproduces the same stage order and parameter values. -/
theorem C8_pipeline_roundtrip :
    ∀ (input_copc output_las las1 copc1 las2 copc2 : String) (t : Tile),
      decodePipeline (encodePipeline (reprojectPipeline input_copc output_las)) =
        some (reprojectPipeline input_copc output_las) ∧
      decodePipeline (encodePipeline (tilePipeline las1 copc1 t)) =
        some (tilePipeline las1 copc1 t) ∧
      decodePipeline (encodePipeline (copcPipeline las2 copc2)) =
        some (copcPipeline las2 copc2) :=
  fun _ _ _ _ _ _ _ =>
    ⟨decodePipeline_encodePipeline _, decodePipeline_encodePipeline _,
     decodePipeline_encodePipeline _⟩

/-- C9 (amended): an absent document yields a failure result without
raising; a present document with a bounding-box min or max list of fewer
than three entries yields a failure result without raising provided its
points value is numeric — with a non-numeric points value the summary
formatting at line 149 raises before the length guard is reached. -/
theorem C9_verify_total_on_malformed :
    verify_potree_metadata none = some false ∧
    (∀ m : Metadata, pointsFormatOk m.points = true →
      m.bbox_min.length < 3 ∨ m.bbox_max.length < 3 →
      verify_potree_metadata (some m) = some false) ∧
    (∀ m : Metadata, pointsFormatOk m.points = false →
      verify_potree_metadata (some m) = none) := by
  refine ⟨rfl, ?_, ?_⟩
  · intro m hp h
    have hc : ¬(3 ≤ m.bbox_min.length ∧ 3 ≤ m.bbox_max.length) := by omega
    simp [verify_potree_metadata, hp, hc]
  · intro m hp
    simp [verify_potree_metadata, hp]

/-- Counterexample to C9 as stated: a JSON-parsable document with bound
lists shorter than three entries but a non-numeric points value makes
verification raise at the points formatting (result `none`) instead of
returning a failure result. -/
theorem C9_counterexample :
    (Metadata.mk (JVal.str "n/a") [] []).bbox_min.length < 3 ∧
    verify_potree_metadata (some (Metadata.mk (JVal.str "n/a") [] [])) =
      none :=
  ⟨by decide, rfl⟩

/-- Witness for C9 (amended) at concrete inputs. -/
theorem C9_witness :
    verify_potree_metadata none = some false ∧
    verify_potree_metadata (some ⟨JVal.num 0, [], []⟩) = some false ∧
    verify_potree_metadata (some ⟨JVal.null, [], []⟩) = none :=
  ⟨C9_verify_total_on_malformed.1,
   C9_verify_total_on_malformed.2.1 ⟨JVal.num 0, [], []⟩ rfl (Or.inl (by decide)),
   C9_verify_total_on_malformed.2.2 ⟨JVal.null, [], []⟩ rfl⟩

/-- C10: the altitude sanity check examines only the maximum altitude —
the verification result never depends on the minimum altitude entry, and
with in-range longitude/latitude bounds and maximum altitude at most 100
verification succeeds for every minimum altitude. -/
theorem C10_min_altitude_ignored :
    ∀ pts a b c c' d e f : ℚ,
      verify_potree_metadata (some ⟨JVal.num pts, [a, b, c], [d, e, f]⟩) =
        verify_potree_metadata (some ⟨JVal.num pts, [a, b, c'], [d, e, f]⟩) ∧
      ((-180 ≤ a ∧ a ≤ 180) → (-180 ≤ d ∧ d ≤ 180) → (-90 ≤ b ∧ b ≤ 90) →
        (-90 ≤ e ∧ e ≤ 90) → f ≤ 100 →
        verify_potree_metadata (some ⟨JVal.num pts, [a, b, c], [d, e, f]⟩) =
          some true) := by
  intro pts a b c c' d e f
  refine ⟨rfl, ?_⟩
  intro ha hd hb he hf
  exact (verify_triple_iff pts a b c d e f).mpr ⟨ha, hd, hb, he, hf⟩

/-- Witness for C10: an extreme minimum altitude still verifies. -/
theorem C10_witness :
    verify_potree_metadata (some ⟨JVal.num 0, [0, 0, -999999], [0, 0, 0]⟩) =
      some true :=
  (C10_min_altitude_ignored 0 0 0 (-999999) 0 0 0 0).2 (by norm_num)
    (by norm_num) (by norm_num) (by norm_num) (by norm_num)

theorem inBand_char (i : Nat) (lat : ℚ) :
    inBand i lat = true ↔
      ((i = 0 ∧ -90 ≤ lat ∧ lat < -30) ∨ (i = 1 ∧ -30 ≤ lat ∧ lat < 0) ∨
       (i = 2 ∧ 0 ≤ lat ∧ lat < 30) ∨ (i = 3 ∧ 30 ≤ lat ∧ lat ≤ 90)) := by
  rcases i with _ | _ | _ | _ | n
  · simp [inBand, tiles]
  · simp [inBand, tiles]
  · simp [inBand, tiles]
  · simp [inBand, tiles]
  · simp only [inBand, tiles, List.get?]
    simp only [Bool.false_eq_true, false_iff]
    rintro (⟨h, -⟩ | ⟨h, -⟩ | ⟨h, -⟩ | ⟨h, -⟩) <;> omega

theorem band_unique (lat : ℚ) (i j : Nat)
    (hi : inBand i lat = true) (hj : inBand j lat = true) : j = i := by
  rw [inBand_char] at hi hj
  rcases hi with ⟨e1, hA, hB⟩ | ⟨e1, hA, hB⟩ | ⟨e1, hA, hB⟩ | ⟨e1, hA, hB⟩ <;>
    rcases hj with ⟨e2, hC, hD⟩ | ⟨e2, hC, hD⟩ | ⟨e2, hC, hD⟩ | ⟨e2, hC, hD⟩ <;>
    subst e1 <;> subst e2 <;> first | rfl | (exfalso; linarith)

theorem tileOutputPath_inj (output_dir base_name : String) (t1 t2 : Tile)
    (h : tileOutputPath output_dir base_name t1 =
         tileOutputPath output_dir base_name t2) :
    t1.name = t2.name := by
  have hd := congrArg String.data h
  simp only [tileOutputPath, String.data_append, List.append_assoc] at hd
  have h1 := List.append_cancel_left hd
  have h2 := List.append_cancel_left h1
  have h3 := List.append_cancel_left h2
  have h4 := List.append_cancel_left h3
  exact congrArg String.mk (List.append_cancel_right h4)

theorem tileOutputs_nodup (output_dir base_name : String) :
    (tiles.map (tileOutputPath output_dir base_name)).Nodup := by
  have hinj : ∀ t1 ∈ tiles, ∀ t2 ∈ tiles,
      tileOutputPath output_dir base_name t1 =
        tileOutputPath output_dir base_name t2 → t1 = t2 := by
    intro t1 h1 t2 h2 h
    have hn := tileOutputPath_inj output_dir base_name t1 t2 h
    fin_cases h1 <;> fin_cases h2 <;> first | rfl | (exfalso; revert hn; decide)
  exact List.Nodup.map_on hinj (by decide)

/-- C3: the latitude tiler builds exactly four band descriptors with bounds
(-90,-30), (-30,0), (0,30), (30,90); under the spec's inclusive-exclusive
band semantics the bands are contiguous and partition [-90, 90] exactly
(every in-range latitude lies in exactly one band, every out-of-range
latitude in none); and one distinct output artifact is produced per band
per input file. -/
theorem C3_latitude_bands :
    tiles.length = 4 ∧
    tiles.map (fun t => (t.lat_min, t.lat_max)) =
      [(-90, -30), (-30, 0), (0, 30), (30, 90)] ∧
    (∀ i, i + 1 < tiles.length →
      (tiles.getD i ⟨"", 0, 0⟩).lat_max = (tiles.getD (i + 1) ⟨"", 0, 0⟩).lat_min) ∧
    (∀ lat : ℚ,
      ((-90 ≤ lat ∧ lat ≤ 90) →
        ∃ i, inBand i lat = true ∧ ∀ j, inBand j lat = true → j = i) ∧
      (¬(-90 ≤ lat ∧ lat ≤ 90) → ∀ i, inBand i lat = false)) ∧
    (∀ output_dir base_name,
      (tiles.map (tileOutputPath output_dir base_name)).length = 4 ∧
      (tiles.map (tileOutputPath output_dir base_name)).Nodup) := by
  refine ⟨rfl, by decide, ?_, ?_, ?_⟩
  · intro i hi
    have h3 : i < 3 := by simp [tiles] at hi; omega
    interval_cases i <;> decide
  · intro lat
    constructor
    · rintro ⟨hlo, hhi⟩
      by_cases c1 : lat < -30
      · have h0 := (inBand_char 0 lat).mpr (Or.inl ⟨rfl, hlo, c1⟩)
        exact ⟨0, h0, fun j hj => band_unique lat 0 j h0 hj⟩
      · by_cases c2 : lat < 0
        · have h0 := (inBand_char 1 lat).mpr
            (Or.inr (Or.inl ⟨rfl, by linarith, c2⟩))
          exact ⟨1, h0, fun j hj => band_unique lat 1 j h0 hj⟩
        · by_cases c3 : lat < 30
          · have h0 := (inBand_char 2 lat).mpr
              (Or.inr (Or.inr (Or.inl ⟨rfl, by linarith, c3⟩)))
            exact ⟨2, h0, fun j hj => band_unique lat 2 j h0 hj⟩
          · have h0 := (inBand_char 3 lat).mpr
              (Or.inr (Or.inr (Or.inr ⟨rfl, by linarith, hhi⟩)))
            exact ⟨3, h0, fun j hj => band_unique lat 3 j h0 hj⟩
    · intro hn i
      cases hb : inBand i lat
      · rfl
      · exfalso
        rw [inBand_char] at hb
        by_cases hl : -90 ≤ lat
        · have hg : 90 < lat := by
            by_contra hg
            push_neg at hg
            exact hn ⟨hl, hg⟩
          rcases hb with ⟨-, -, h⟩ | ⟨-, -, h⟩ | ⟨-, -, h⟩ | ⟨-, -, h⟩ <;> linarith
        · push_neg at hl
          rcases hb with ⟨-, h, -⟩ | ⟨-, h, -⟩ | ⟨-, h, -⟩ | ⟨-, h, -⟩ <;> linarith
  · intro output_dir base_name
    exact ⟨by simp [tiles], tileOutputs_nodup output_dir base_name⟩

/-- Witness for C3: latitude 45 lies in exactly one band, and the four
output artifact paths for a concrete input are distinct. -/
theorem C3_witness :
    (∃ i, inBand i 45 = true ∧ ∀ j, inBand j 45 = true → j = i) ∧
    (tiles.map (tileOutputPath "out" "calipso")).Nodup :=
  ⟨(C3_latitude_bands.2.2.2.1 45).1 ⟨by norm_num, by norm_num⟩,
   (C3_latitude_bands.2.2.2.2 "out" "calipso").2⟩

/-- C4: in the latitude tiler each band's failure is independent — for
every combination of per-band process outcomes all four bands are
processed (the event trace always contains exactly the four spawns, in
band order), and successes plus failures total 4. -/
theorem C4_band_failure_independent :
    ∀ las_path output_dir base_name outcome fs,
      (split_las_to_tiles las_path output_dir base_name outcome fs).2.1 =
        Event.mkdir output_dir ::
          tiles.map (fun t => Event.spawn
            ("pdal pipeline --stdin " ++ tileOutputPath output_dir base_name t)) ∧
      (split_las_to_tiles las_path output_dir base_name outcome fs).1.1 +
        (split_las_to_tiles las_path output_dir base_name outcome fs).1.2 = 4 := by
  intro las_path output_dir base_name outcome fs
  refine ⟨rfl, ?_⟩
  cases h0 : outcome 0 <;> cases h1 : outcome 1 <;> cases h2 : outcome 2 <;>
    cases h3 : outcome 3 <;>
    simp [split_las_to_tiles, tiles, List.enum, List.enumFrom, h0, h1, h2, h3]

/-- Whether an event is an external process spawn. -/
def isSpawn : Event → Bool
  | Event.spawn _ => true
  | _ => false

/-- C1 (amended): the COPC-to-Potree converter and the batch driver fail
with exit status 1 and no spawned process when their input path does not
exist; the latitude tiler performs no existence check and spawns the
external process for each of the four bands regardless of whether the
input file exists. -/
theorem C1_input_existence_checks :
    (∀ input_copc output_dir temp_las pipeline_file pdalOk potreeOk md fs,
      fs input_copc = false →
      (copc_main input_copc output_dir temp_las pipeline_file pdalOk potreeOk
          md fs).1 = 1 ∧
      (copc_main input_copc output_dir temp_las pipeline_file pdalOk potreeOk
          md fs).2.1 = []) ∧
    (∀ copc_dir copc_files response output_base_dir outcome fs,
      fs copc_dir = false →
      (batch_main copc_dir copc_files response output_base_dir outcome fs).1 = 1 ∧
      (batch_main copc_dir copc_files response output_base_dir outcome fs).2.1 = []) ∧
    (∀ las_path output_dir base_name outcome fs,
      fs las_path = false →
      (split_las_to_tiles las_path output_dir base_name outcome fs).2.1.countP
        isSpawn = 4) := by
  refine ⟨?_, ?_, ?_⟩
  · intro input_copc output_dir temp_las pipeline_file pdalOk potreeOk md fs h
    refine ⟨?_, ?_⟩ <;> simp [copc_main, h]
  · intro copc_dir copc_files response output_base_dir outcome fs h
    refine ⟨?_, ?_⟩ <;> simp [batch_main, h]
  · intro las_path output_dir base_name outcome fs h
    rfl

/-- Counterexample to C1 as stated: with a filesystem on which the input
LAS file does not exist, the latitude tiler still spawns four external
processes instead of failing with input-not-found first. -/
theorem C1_counterexample :
    (fun _ => false : FSState) "missing.las" = false ∧
    (split_las_to_tiles "missing.las" "out" "missing" (fun _ => false)
        (fun _ => false)).2.1.countP isSpawn = 4 :=
  ⟨rfl, by decide⟩

/-- Witness for C1 (amended) at concrete inputs. -/
theorem C1_witness :
    (copc_main "absent.copc.laz" "out" "tmp.las" "pf.json" true true none
        (fun _ => false)).1 = 1 ∧
    (batch_main "absent_dir" ["a.copc.laz"] "y" "out" (fun _ => true)
        (fun _ => false)).1 = 1 :=
  ⟨(C1_input_existence_checks.1 "absent.copc.laz" "out" "tmp.las" "pf.json"
      true true none (fun _ => false) rfl).1,
   (C1_input_existence_checks.2.1 "absent_dir" ["a.copc.laz"] "y" "out"
      (fun _ => true) (fun _ => false) rfl).1⟩

/-- C5 (amended): the temporary pipeline-descriptor file and the temporary
LAS file are deleted on every outcome; in the HDF pipeline the
intermediate LAS and COPC artifacts are deleted when the job succeeds
with the keep-intermediate flag unset. -/
theorem C5_cleanup :
    (∀ input_copc output_las pipeline_file pdalOk fs,
      (reproject_copc_to_las input_copc output_las pipeline_file pdalOk
          fs).2.1 pipeline_file = false) ∧
    (∀ input_copc output_dir temp_las pipeline_file pdalOk potreeOk md fs,
      fs temp_las = false → fs pipeline_file = false →
      (copc_main input_copc output_dir temp_las pipeline_file pdalOk potreeOk
          md fs).2.2 temp_las = false ∧
      (copc_main input_copc output_dir temp_las pipeline_file pdalOk potreeOk
          md fs).2.2 pipeline_file = false) ∧
    (∀ hdf_stem output_dir w home fs,
      (convert_hdf_to_potree hdf_stem output_dir none (some w) home false
          true true true fs).2 (output_dir ++ "/" ++ hdf_stem ++ ".las") = false ∧
      (convert_hdf_to_potree hdf_stem output_dir none (some w) home false
          true true true fs).2 (output_dir ++ "/" ++ hdf_stem ++ ".copc.laz") =
        false) := by
  refine ⟨?_, ?_, ?_⟩
  · intro input_copc output_las pipeline_file pdalOk fs
    simp [reproject_copc_to_las, fsDel]
  · intro input_copc output_dir temp_las pipeline_file pdalOk potreeOk md fs h1 h2
    by_cases hin : fs input_copc = false
    · simp [copc_main, hin, h1, h2]
    · cases pdalOk <;> cases potreeOk <;>
        refine ⟨?_, ?_⟩ <;>
        cases hv : verify_potree_metadata md <;>
        simp [copc_main, reproject_copc_to_las, convert_las_to_potree, hin, hv,
          fsDel, fsAdd]
  · intro hdf_stem output_dir w home fs
    refine ⟨?_, ?_⟩ <;>
      simp [convert_hdf_to_potree, check_potree_converter, fsDel, fsAdd]

/-- Counterexample to C5 as stated: when the LAS-to-COPC step fails with
the keep-intermediate flag unset, the job ends with the intermediate LAS
file still on disk. -/
theorem C5_counterexample :
    (convert_hdf_to_potree "calipso" "potree_data" none
        (some "/usr/bin/PotreeConverter") "/home/user" false true false true
        (fun _ => false)).1 = HdfOutcome.stepFailed 2 ∧
    (convert_hdf_to_potree "calipso" "potree_data" none
        (some "/usr/bin/PotreeConverter") "/home/user" false true false true
        (fun _ => false)).2 "potree_data/calipso.las" = true := by
  refine ⟨by decide, by decide⟩

/-- Witness for C5 (amended) at concrete inputs. -/
theorem C5_witness :
    (reproject_copc_to_las "in.copc.laz" "out.las" "p.json" true
        (fun _ => false)).2.1 "p.json" = false ∧
    (copc_main "in.copc.laz" "od" "t.las" "p.json" true true none
        (fun _ => false)).2.2 "t.las" = false :=
  ⟨C5_cleanup.1 "in.copc.laz" "out.las" "p.json" true (fun _ => false),
   (C5_cleanup.2.1 "in.copc.laz" "od" "t.las" "p.json" true true none
      (fun _ => false) rfl rfl).1⟩

/-- C6 (amended): an explicit caller-provided path is authoritative — it
resolves exactly when it exists and the other strategies are not
consulted; with no explicit path the search-path lookup result is used
when present, else the first existing common install location; the HDF
pipeline raises tool-not-found exactly when this resolution yields
nothing. -/
theorem C6_resolution_order :
    (∀ p whichResult home fs,
      check_potree_converter (some p) whichResult home fs =
        (if fs p then some p else none)) ∧
    (∀ w home fs, check_potree_converter none (some w) home fs = some w) ∧
    (∀ home fs,
      check_potree_converter none none home fs = (common_paths home).find? fs) ∧
    (∀ hdf_stem output_dir pcp wr home ki l c pk fs,
      (convert_hdf_to_potree hdf_stem output_dir pcp wr home ki l c pk fs).1 =
          HdfOutcome.toolNotFound ↔
        check_potree_converter pcp wr home fs = none) := by
  refine ⟨fun _ _ _ _ => rfl, fun _ _ _ => rfl, fun _ _ => rfl, ?_⟩
  intro hdf_stem output_dir pcp wr home ki l c pk fs
  cases hc : check_potree_converter pcp wr home fs
  · simp [convert_hdf_to_potree, hc]
  · simp [convert_hdf_to_potree, hc]
    split_ifs <;> simp

/-- Counterexample to C6 as stated: with an explicit path that does not
exist while the search-path lookup resolves to an existing executable,
resolution still fails and the pipeline raises tool-not-found, although
strategy (b) resolves. -/
theorem C6_counterexample :
    (fun p => decide (p = "/usr/bin/PotreeConverter") : FSState)
      "/bad/PotreeConverter" = false ∧
    check_potree_converter (some "/bad/PotreeConverter")
      (some "/usr/bin/PotreeConverter") "/home/user"
      (fun p => decide (p = "/usr/bin/PotreeConverter")) = none ∧
    (convert_hdf_to_potree "a" "o" (some "/bad/PotreeConverter")
        (some "/usr/bin/PotreeConverter") "/home/user" false true true true
        (fun p => decide (p = "/usr/bin/PotreeConverter"))).1 =
      HdfOutcome.toolNotFound := by
  refine ⟨by decide, by decide, by decide⟩

/-- Witness for C6 (amended): with nothing resolvable the pipeline raises
tool-not-found. -/
theorem C6_witness :
    (convert_hdf_to_potree "a" "o" none none "/home/user" false true true true
        (fun _ => false)).1 = HdfOutcome.toolNotFound :=
  (C6_resolution_order.2.2.2 "a" "o" none none "/home/user" false true true
    true (fun _ => false)).mpr (by decide)

/-- C7 (amended): a negative or missing confirmation response aborts the
batch driver with exit status 0, no file processed and no process
spawned; but the output directory has already been created before the
prompt, so that one filesystem write to the output location does occur. -/
theorem C7_decline_aborts :
    ∀ copc_dir copc_files response output_base_dir outcome fs,
      fs copc_dir = true → copc_files.isEmpty = false →
      strLower response ≠ "y" →
      (batch_main copc_dir copc_files response output_base_dir outcome fs).1 = 0 ∧
      (batch_main copc_dir copc_files response output_base_dir outcome fs).2.2 = [] ∧
      (batch_main copc_dir copc_files response output_base_dir outcome fs).2.1 =
        [Event.mkdir output_base_dir] := by
  intro copc_dir copc_files response output_base_dir outcome fs h1 h2 h3
  refine ⟨?_, ?_, ?_⟩ <;> simp [batch_main, h1, h2, h3]

/-- Counterexample to C7 as stated: after a declined prompt the run exits
0, yet a filesystem write to the output location (its directory creation)
has already occurred. -/
theorem C7_counterexample :
    (batch_main "copc" ["a.copc.laz"] "n" "out" (fun _ => true)
        (fun _ => true)).1 = 0 ∧
    Event.mkdir "out" ∈
      (batch_main "copc" ["a.copc.laz"] "n" "out" (fun _ => true)
          (fun _ => true)).2.1 := by
  refine ⟨by decide, by decide⟩

/-- Witness for C7 (amended): an empty (missing) response aborts with
exit status 0. -/
theorem C7_witness :
    (batch_main "copc" ["a.copc.laz"] "" "out" (fun _ => true)
        (fun _ => true)).1 = 0 :=
  (C7_decline_aborts "copc" ["a.copc.laz"] "" "out" (fun _ => true)
    (fun _ => true) rfl rfl (by decide)).1
